import Mathlib

/-!
Verification development for the fantasymanager25 scoring engine and its
derived-metrics layer.

The definitions in the first part of this file are a shallow embedding of the
Python sources:

* `src/pipeline/utils.py` — the shared scoring module (`_g`, `ALIAS`,
  `detect_pos`, `_score_passing`, `_score_rushing`, `_score_receiving`,
  `_score_turnovers_and_returns`, `_score_kicker`, `_bucket_score`,
  `_score_dst`, `calculate_fantasy_points`, `apply_scoring`);
* `src/analysis/vorp_calculator.py` — the replacement-value / VORP logic;
* `src/analysis/draft_tier_generator.py` — tier thresholds and assignment;
* `src/analysis/consistency_analyzer.py` — the minimum-games output filter;
* `src/analysis/matchup_analyzer.py` — the per-player matchup record;
* `src/analysis/waiver_wire.py` and `src/data/analysis/waiver_wire.py` —
  the hardcoded bonus thresholds and D/ST points-allowed tables.

Python floats are modelled as `ℚ`; a pandas cell is either numeric or a
string, a missing or NaN cell is simply absent from the row.  Python `dict`
access `d["k"]` that can raise `KeyError`, and any other raising path, is
modelled by an `Option` result, `none` standing for the raised exception.
-/

/-- A pandas cell as the scoring code observes it: numeric or string.
A missing or NaN cell is modelled by absence from the row. -/
inductive Cell where
  | num (q : ℚ)
  | str (s : String)
deriving DecidableEq

/-- One player's row for one game: a sparse mapping from column name to cell,
in column order (pandas `Series`). -/
abbrev StatRow := List (String × Cell)

/-- First cell stored under a column name, scanning left to right. -/
def lookupCell : StatRow → String → Option Cell
  | [], _ => none
  | kv :: rest, n => if kv.1 = n then some kv.2 else lookupCell rest n

/-- `_g(row, names, default=0.0)` from `src/pipeline/utils.py`: probe the
alias names in order and return the first numeric value found, else `0`.
(A present string cell that does not parse as a float is skipped by the
`try/except` in the source; stat columns are numeric, so a string cell is
modelled as unparseable.) -/
def _g (row : StatRow) : List String → ℚ
  | [] => 0
  | n :: rest =>
    match lookupCell row n with
    | some (Cell.num q) => q
    | _ => _g row rest

/- The `ALIAS` table of `src/pipeline/utils.py`, one list per stat. -/

def al_pass_yds : List String := ["passing_yards", "pass_yards", "py", "pass_yds"]
def al_pass_tds : List String := ["passing_tds", "pass_tds", "passing_touchdowns"]
def al_pass_int : List String := ["interceptions", "interceptions_thrown", "pass_interceptions"]
def al_two_pt_pass : List String := ["two_point_pass", "pass_2pt", "two_pt_pass", "passing_2pt_conversions"]
def al_rush_yds : List String := ["rushing_yards", "rush_yards", "ry", "rush_yds"]
def al_rush_tds : List String := ["rushing_tds", "rush_tds", "rushing_touchdowns"]
def al_two_pt_rush : List String := ["two_point_rush", "rush_2pt", "two_pt_rush", "rushing_2pt_conversions"]
def al_rush_fd : List String := ["rushing_first_downs", "rush_first_downs", "first_down_rush"]
def al_rec : List String := ["receptions", "rec", "recs"]
def al_rec_yds : List String := ["receiving_yards", "rec_yards", "rey", "rec_yds"]
def al_rec_tds : List String := ["receiving_tds", "rec_tds", "receiving_touchdowns"]
def al_two_pt_rec : List String := ["two_point_receive", "rec_2pt", "two_pt_rec", "receiving_2pt_conversions"]
def al_rec_fd : List String := ["receiving_first_downs", "rec_first_downs", "first_down_rec", "first_down_receiving"]
def al_fumbles_lost : List String := ["fumbles_lost", "fumlost", "fumbles_lost_offense"]
def al_kr_td : List String := ["kick_return_tds", "kret_td", "kick_return_td"]
def al_pr_td : List String := ["punt_return_tds", "pret_td", "punt_return_td"]
def al_int_ret_td : List String := ["int_return_td", "interception_return_td"]
def al_fum_ret_td : List String := ["fumble_return_td"]
def al_blk_kick_ret_td : List String := ["blocked_kick_return_td", "blocked_punt_fg_return_td"]
def al_two_pt_ret : List String := ["two_pt_return", "def_two_pt_return"]
def al_one_pt_safety : List String := ["one_pt_safety", "one_point_safety"]
def al_pat_made : List String := ["pat_made", "xp_made", "extra_points_made"]
def al_fg_miss : List String := ["fg_missed", "field_goals_missed"]
def al_fg_0_39 : List String := ["fgm_0_39", "fg_made_0_39"]
def al_fg_40_49 : List String := ["fgm_40_49", "fg_made_40_49"]
def al_fg_50_59 : List String := ["fgm_50_59", "fg_made_50_59"]
def al_fg_60_plus : List String := ["fgm_60_plus", "fg_made_60_plus", "fg_made_60_plus_yards"]
def al_dst_sacks : List String := ["def_sacks", "sacks", "team_def_sacks"]
def al_dst_int : List String := ["def_interceptions", "interceptions_def", "team_def_interceptions"]
def al_dst_fr : List String := ["def_fumbles_recovered", "fumbles_recovered_def", "team_def_fumbles_rec"]
def al_dst_safety : List String := ["def_safeties", "safeties", "team_def_safeties"]
def al_dst_block : List String := ["def_blocked_kicks", "blocked_kicks", "team_def_blocks"]
def al_points_allowed : List String := ["points_allowed", "pa_def", "def_points_allowed"]
def al_yards_allowed : List String := ["yards_allowed", "ya_def", "def_yards_allowed"]
def al_dst_kr_td : List String := ["def_kick_return_td", "def_kick_return_tds"]
def al_dst_pr_td : List String := ["def_punt_return_td", "def_punt_return_tds"]
def al_dst_int_ret_td : List String := ["def_int_return_td", "def_interception_td"]
def al_dst_fum_ret_td : List String := ["def_fumble_return_td"]
def al_dst_blk_kick_ret_td : List String := ["def_blocked_kick_return_td"]

/- The `ScoringRules` JSON structure consumed by `src/pipeline/utils.py`.
A required weight accessed as `table["key"]` raises `KeyError` when absent,
so each weight field is an `Option ℚ`, `none` modelling the absent key.
Bonus weights read with `.get(key, 0.0)` are also `Option ℚ` but default
to `0` instead of failing. -/

structure PassingRules where
  yards_per : Option ℚ
  td : Option ℚ
  int : Option ℚ
  two_pt : Option ℚ
  bonus_400_plus_yards : Option ℚ
deriving DecidableEq

structure RushingRules where
  yards_per : Option ℚ
  td : Option ℚ
  two_pt : Option ℚ
  first_down : Option ℚ
  bonus_100_to_199_yards : Option ℚ
deriving DecidableEq

structure ReceivingRules where
  yards_per : Option ℚ
  reception : Option ℚ
  td : Option ℚ
  two_pt : Option ℚ
  first_down : Option ℚ
  bonus_200_plus_yards : Option ℚ
deriving DecidableEq

structure TurnoverRules where
  fumbles_lost : Option ℚ
deriving DecidableEq

structure ReturnRules where
  kick_return_td : Option ℚ
  punt_return_td : Option ℚ
  int_return_td : Option ℚ
  fumble_return_td : Option ℚ
  blocked_kick_return_td : Option ℚ
  two_pt_return : Option ℚ
  one_pt_safety : Option ℚ
deriving DecidableEq

structure OffenseRules where
  passing : PassingRules
  rushing : RushingRules
  receiving : ReceivingRules
  turnovers : TurnoverRules
  returns : ReturnRules
deriving DecidableEq

structure KickingRules where
  pat_made : Option ℚ
  fg_miss : Option ℚ
  fg_0_39 : Option ℚ
  fg_40_49 : Option ℚ
  fg_50_59 : Option ℚ
  fg_60_plus : Option ℚ
deriving DecidableEq

/-- One entry of a D/ST bucket table: `min`/`max` read with `.get(..., None)`,
`points` is the fixed award of the bucket. -/
structure Bucket where
  min : Option ℚ
  max : Option ℚ
  points : ℚ
deriving DecidableEq

structure DstReturnRules where
  kickoff : Option ℚ
  punt : Option ℚ
  interception : Option ℚ
  fumble : Option ℚ
  blocked_kick : Option ℚ
deriving DecidableEq

structure DstRules where
  sack : Option ℚ
  block : Option ℚ
  interception : Option ℚ
  fumble_recovery : Option ℚ
  safety : Option ℚ
  return_tds : DstReturnRules
  points_allowed : List Bucket
  yards_allowed : List Bucket
deriving DecidableEq

structure ScoringRules where
  offense : OffenseRules
  kicking : KickingRules
  dst : DstRules
deriving DecidableEq

/-- `detect_pos` probes these keys in order (`src/pipeline/utils.py`). -/
def posKeys : List String := ["pos", "position", "player_position", "fantasy_position"]

/-- First key among `keys` holding a non-empty string cell. -/
def findPosValue (row : StatRow) : List String → Option String
  | [] => none
  | k :: rest =>
    match lookupCell row k with
    | some (Cell.str v) => if v = "" then findPosValue row rest else some v
    | _ => findPosValue row rest

/-- Python's `str.upper()` restricted to the character-wise ASCII mapping
(all position strings in the data are ASCII). -/
def pyUpper (s : String) : String := String.mk (s.data.map Char.toUpper)

/-- `detect_pos(row)`: the first non-empty string among the position keys,
upper-cased, else `"FLEX"`. -/
def detect_pos (row : StatRow) : String :=
  match findPosValue row posKeys with
  | some v => pyUpper v
  | none => "FLEX"

/-- Python's `round(x, 2)` rounds half to even; on `ℚ` this is the exact
round-half-to-even integer of `100 * x`, divided by `100` (the binary
representation artefacts of float `round` are outside this model; the spec
accepts either consistent convention). -/
def roundHalfEven (x : ℚ) : ℤ :=
  let f := ⌊x⌋
  let r := x - (f : ℚ)
  if r < 1/2 then f
  else if 1/2 < r then f + 1
  else if f % 2 = 0 then f else f + 1

/-- Round to two decimal places, half to even. -/
def round2 (x : ℚ) : ℚ := ((roundHalfEven (100 * x) : ℤ) : ℚ) / 100

/-- `_score_passing(row, s)` from `src/pipeline/utils.py`.  The four required
weights are bound first (a missing one raises `KeyError`, i.e. `none`); the
400-yard bonus is read with `.get(..., 0.0)`. -/
def _score_passing (row : StatRow) (s : ScoringRules) : Option ℚ :=
  (s.offense.passing.yards_per).bind fun yp =>
  (s.offense.passing.td).bind fun td =>
  (s.offense.passing.int).bind fun iw =>
  (s.offense.passing.two_pt).bind fun tp =>
  let yards := _g row al_pass_yds
  let pts := yards * yp + _g row al_pass_tds * td + _g row al_pass_int * iw
      + _g row al_two_pt_pass * tp
  some (if 400 ≤ yards then pts + (s.offense.passing.bonus_400_plus_yards).getD 0 else pts)

/-- `_score_rushing(row, s)`: linear terms plus the 100-to-199-yard bonus,
awarded only when `100 <= yards < 200` in the source. -/
def _score_rushing (row : StatRow) (s : ScoringRules) : Option ℚ :=
  (s.offense.rushing.yards_per).bind fun yp =>
  (s.offense.rushing.td).bind fun td =>
  (s.offense.rushing.two_pt).bind fun tp =>
  (s.offense.rushing.first_down).bind fun fd =>
  let yards := _g row al_rush_yds
  let pts := yards * yp + _g row al_rush_tds * td + _g row al_two_pt_rush * tp
      + _g row al_rush_fd * fd
  some (if 100 ≤ yards ∧ yards < 200
        then pts + (s.offense.rushing.bonus_100_to_199_yards).getD 0 else pts)

/-- `_score_receiving(row, s)`: linear terms plus the 200-plus-yard bonus. -/
def _score_receiving (row : StatRow) (s : ScoringRules) : Option ℚ :=
  (s.offense.receiving.yards_per).bind fun yp =>
  (s.offense.receiving.reception).bind fun rc =>
  (s.offense.receiving.td).bind fun td =>
  (s.offense.receiving.two_pt).bind fun tp =>
  (s.offense.receiving.first_down).bind fun fd =>
  let yards := _g row al_rec_yds
  let pts := yards * yp + _g row al_rec * rc + _g row al_rec_tds * td
      + _g row al_two_pt_rec * tp + _g row al_rec_fd * fd
  some (if 200 ≤ yards then pts + (s.offense.receiving.bonus_200_plus_yards).getD 0 else pts)

/-- `_score_turnovers_and_returns(row, s)`. -/
def _score_turnovers_and_returns (row : StatRow) (s : ScoringRules) : Option ℚ :=
  (s.offense.turnovers.fumbles_lost).bind fun fl =>
  (s.offense.returns.kick_return_td).bind fun kr =>
  (s.offense.returns.punt_return_td).bind fun pr =>
  (s.offense.returns.int_return_td).bind fun ir =>
  (s.offense.returns.fumble_return_td).bind fun fr =>
  (s.offense.returns.blocked_kick_return_td).bind fun bk =>
  (s.offense.returns.two_pt_return).bind fun tpr =>
  (s.offense.returns.one_pt_safety).bind fun ops =>
  some (_g row al_fumbles_lost * fl + _g row al_kr_td * kr + _g row al_pr_td * pr
      + _g row al_int_ret_td * ir + _g row al_fum_ret_td * fr
      + _g row al_blk_kick_ret_td * bk + _g row al_two_pt_ret * tpr
      + _g row al_one_pt_safety * ops)

/-- `_score_kicker(row, s)`. -/
def _score_kicker (row : StatRow) (s : ScoringRules) : Option ℚ :=
  (s.kicking.pat_made).bind fun pm =>
  (s.kicking.fg_miss).bind fun fm =>
  (s.kicking.fg_0_39).bind fun f0 =>
  (s.kicking.fg_40_49).bind fun f40 =>
  (s.kicking.fg_50_59).bind fun f50 =>
  (s.kicking.fg_60_plus).bind fun f60 =>
  some (_g row al_pat_made * pm + _g row al_fg_miss * fm + _g row al_fg_0_39 * f0
      + _g row al_fg_40_49 * f40 + _g row al_fg_50_59 * f50 + _g row al_fg_60_plus * f60)

/-- `_bucket_score(value, buckets)` from `src/pipeline/utils.py`: walk the
bucket list in order, return the fixed points of the first bucket whose
(possibly half-open) inclusive range contains `value`, else `0` after the
list is exhausted.  A bucket with neither bound makes the source compare
`value <= None`, a `TypeError`, modelled as `none`. -/
def bucketScore (value : ℚ) : List Bucket → Option ℚ
  | [] => some 0
  | b :: bs =>
    match b.min, b.max with
    | none, none => none
    | none, some mx => if value ≤ mx then some b.points else bucketScore value bs
    | some mn, none => if mn ≤ value then some b.points else bucketScore value bs
    | some mn, some mx =>
        if mn ≤ value ∧ value ≤ mx then some b.points else bucketScore value bs

/-- `_score_dst(row, s)`: event counts times weights, plus the
points-allowed and yards-allowed bucket values. -/
def _score_dst (row : StatRow) (s : ScoringRules) : Option ℚ :=
  (s.dst.sack).bind fun wsk =>
  (s.dst.block).bind fun wbl =>
  (s.dst.interception).bind fun wint =>
  (s.dst.fumble_recovery).bind fun wfr =>
  (s.dst.safety).bind fun wsf =>
  (s.dst.return_tds.kickoff).bind fun wk =>
  (s.dst.return_tds.punt).bind fun wp =>
  (s.dst.return_tds.interception).bind fun wir =>
  (s.dst.return_tds.fumble).bind fun wfu =>
  (s.dst.return_tds.blocked_kick).bind fun wbk =>
  (bucketScore (_g row al_points_allowed) s.dst.points_allowed).bind fun bpa =>
  (bucketScore (_g row al_yards_allowed) s.dst.yards_allowed).bind fun bya =>
  some (_g row al_dst_sacks * wsk + _g row al_dst_block * wbl + _g row al_dst_int * wint
      + _g row al_dst_fr * wfr + _g row al_dst_safety * wsf
      + _g row al_dst_kr_td * wk + _g row al_dst_pr_td * wp
      + _g row al_dst_int_ret_td * wir + _g row al_dst_fum_ret_td * wfu
      + _g row al_dst_blk_kick_ret_td * wbk + bpa + bya)

/-- The skill-player branch of `calculate_fantasy_points`: passing + rushing
+ receiving + turnovers/returns. -/
def skill_points (row : StatRow) (s : ScoringRules) : Option ℚ :=
  (_score_passing row s).bind fun a =>
  (_score_rushing row s).bind fun b =>
  (_score_receiving row s).bind fun c =>
  (_score_turnovers_and_returns row s).bind fun d =>
  some (a + b + c + d)

/-- Python's `pos or detect_pos(row)`: an absent or empty position string
falls back to detection. -/
def pyOr (pos : Option String) (row : StatRow) : String :=
  match pos with
  | some p => if p = "" then detect_pos row else p
  | none => detect_pos row

/-- `calculate_fantasy_points(row, pos, scoring)` from `src/pipeline/utils.py`
(with `scoring` always supplied, as every analysis caller does): upper-case
the resolved position, dispatch to the DST or kicker table, and send every
other position down the generic skill-player path; round the total to two
decimals. -/
def calculate_fantasy_points (row : StatRow) (pos : Option String) (s : ScoringRules) : Option ℚ :=
  let position := pyUpper (pyOr pos row)
  if position = "DST" then (_score_dst row s).map round2
  else if position = "K" then (_score_kicker row s).map round2
  else (skill_points row s).map round2

/-! Required-key predicates: which `KeyError`-raising accesses each scoring
path performs, independent of the row's contents. -/

/-- The required weight keys of `_score_passing` (the 400-yard bonus is
optional: read with `.get`). -/
def passingKeys (s : ScoringRules) : Prop :=
  (s.offense.passing.yards_per).isSome ∧ (s.offense.passing.td).isSome
  ∧ (s.offense.passing.int).isSome ∧ (s.offense.passing.two_pt).isSome

/-- The required weight keys of `_score_rushing`. -/
def rushingKeys (s : ScoringRules) : Prop :=
  (s.offense.rushing.yards_per).isSome ∧ (s.offense.rushing.td).isSome
  ∧ (s.offense.rushing.two_pt).isSome ∧ (s.offense.rushing.first_down).isSome

/-- The required weight keys of `_score_receiving`. -/
def receivingKeys (s : ScoringRules) : Prop :=
  (s.offense.receiving.yards_per).isSome ∧ (s.offense.receiving.reception).isSome
  ∧ (s.offense.receiving.td).isSome ∧ (s.offense.receiving.two_pt).isSome
  ∧ (s.offense.receiving.first_down).isSome

/-- The required weight keys of `_score_turnovers_and_returns`. -/
def turnoverKeys (s : ScoringRules) : Prop :=
  (s.offense.turnovers.fumbles_lost).isSome
  ∧ (s.offense.returns.kick_return_td).isSome ∧ (s.offense.returns.punt_return_td).isSome
  ∧ (s.offense.returns.int_return_td).isSome ∧ (s.offense.returns.fumble_return_td).isSome
  ∧ (s.offense.returns.blocked_kick_return_td).isSome
  ∧ (s.offense.returns.two_pt_return).isSome ∧ (s.offense.returns.one_pt_safety).isSome

/-- All required weight keys of the generic skill-player path. -/
def offenseKeys (s : ScoringRules) : Prop :=
  passingKeys s ∧ rushingKeys s ∧ receivingKeys s ∧ turnoverKeys s

/-- The required weight keys of `_score_kicker`. -/
def kickerKeys (s : ScoringRules) : Prop :=
  (s.kicking.pat_made).isSome ∧ (s.kicking.fg_miss).isSome
  ∧ (s.kicking.fg_0_39).isSome ∧ (s.kicking.fg_40_49).isSome
  ∧ (s.kicking.fg_50_59).isSome ∧ (s.kicking.fg_60_plus).isSome

/-- The required weight keys of `_score_dst`. -/
def dstKeys (s : ScoringRules) : Prop :=
  (s.dst.sack).isSome ∧ (s.dst.block).isSome ∧ (s.dst.interception).isSome
  ∧ (s.dst.fumble_recovery).isSome ∧ (s.dst.safety).isSome
  ∧ (s.dst.return_tds.kickoff).isSome ∧ (s.dst.return_tds.punt).isSome
  ∧ (s.dst.return_tds.interception).isSome ∧ (s.dst.return_tds.fumble).isSome
  ∧ (s.dst.return_tds.blocked_kick).isSome

/-- Every numeric cell of the row is zero ("every stat field zero or
absent"; string cells such as names and positions are not stat fields). -/
def allStatsZero (row : StatRow) : Prop :=
  ∀ kv ∈ row, ∀ q : ℚ, kv.2 = Cell.num q → q = 0

/-- Every bucket of the list carries at least one bound (a bucket with
neither bound would make the source raise a `TypeError`). -/
def wellFormedBuckets (bs : List Bucket) : Prop :=
  ∀ b ∈ bs, (b.min).isSome ∨ (b.max).isSome

/-- Spec wording of bucket lookup (§4.1 step 4): whether the bucket's
inclusive range contains the value. -/
def inBucket (v : ℚ) (b : Bucket) : Bool :=
  match b.min, b.max with
  | none, none => false
  | none, some mx => decide (v ≤ mx)
  | some mn, none => decide (mn ≤ v)
  | some mn, some mx => decide (mn ≤ v) && decide (v ≤ mx)

/-- Spec wording of the bucket value: the fixed points of the first bucket
in list order whose inclusive range contains the value, and `0` when no
bucket matches.  This is the specification-side definition that the source
function `_bucket_score` is compared against. -/
def specBucketValue (v : ℚ) (bs : List Bucket) : ℚ :=
  match bs.find? (fun b => inBucket v b) with
  | some b => b.points
  | none => 0

/-- The linear (non-bucket) part of `_score_dst`, with each weight read
as its value when present (meaningful under `dstKeys`). -/
def dstLinear (row : StatRow) (s : ScoringRules) : ℚ :=
  _g row al_dst_sacks * (s.dst.sack).getD 0 + _g row al_dst_block * (s.dst.block).getD 0
  + _g row al_dst_int * (s.dst.interception).getD 0
  + _g row al_dst_fr * (s.dst.fumble_recovery).getD 0
  + _g row al_dst_safety * (s.dst.safety).getD 0
  + _g row al_dst_kr_td * (s.dst.return_tds.kickoff).getD 0
  + _g row al_dst_pr_td * (s.dst.return_tds.punt).getD 0
  + _g row al_dst_int_ret_td * (s.dst.return_tds.interception).getD 0
  + _g row al_dst_fum_ret_td * (s.dst.return_tds.fumble).getD 0
  + _g row al_dst_blk_kick_ret_td * (s.dst.return_tds.blocked_kick).getD 0

/-- The linear part of `_score_rushing` (meaningful under `rushingKeys`). -/
def rushingLinear (row : StatRow) (s : ScoringRules) : ℚ :=
  _g row al_rush_yds * (s.offense.rushing.yards_per).getD 0
  + _g row al_rush_tds * (s.offense.rushing.td).getD 0
  + _g row al_two_pt_rush * (s.offense.rushing.two_pt).getD 0
  + _g row al_rush_fd * (s.offense.rushing.first_down).getD 0

/-! The hardcoded tables of the two waiver-wire scripts. -/

/-- The yardage bonuses of `src/analysis/waiver_wire.py` (lines 36-41):
one fixed point per phase whenever the phase's yardage meets its floor. -/
def waiverBonus (passing_yards rushing_yards receiving_yards : ℚ) : ℚ :=
  (if 400 ≤ passing_yards then 1 else 0)
  + (if 100 ≤ rushing_yards then 1 else 0)
  + (if 200 ≤ receiving_yards then 1 else 0)

/-- The `np.select` points-allowed table of `src/analysis/waiver_wire.py`
(lines 54-64): first true condition wins, default `0`. -/
def waiverPaPoints (pa : ℚ) : ℚ :=
  if pa = 0 then 5
  else if 1 ≤ pa ∧ pa ≤ 6 then 4
  else if 7 ≤ pa ∧ pa ≤ 13 then 3
  else if 14 ≤ pa ∧ pa ≤ 17 then 1
  else if 18 ≤ pa ∧ pa ≤ 27 then 0
  else if 28 ≤ pa ∧ pa ≤ 34 then -1
  else if 35 ≤ pa ∧ pa ≤ 45 then -3
  else if 46 ≤ pa then -5
  else 0

/-- The `np.select` points-allowed table of `src/data/analysis/waiver_wire.py`
(lines 61-71), which omits the 18-27 band entirely, so those values fall to
the default `0`. -/
def dataWaiverPaPoints (pa : ℚ) : ℚ :=
  if pa = 0 then 5
  else if 1 ≤ pa ∧ pa ≤ 6 then 4
  else if 7 ≤ pa ∧ pa ≤ 13 then 3
  else if 14 ≤ pa ∧ pa ≤ 17 then 1
  else if 28 ≤ pa ∧ pa ≤ 34 then -1
  else if 35 ≤ pa ∧ pa ≤ 45 then -3
  else if 46 ≤ pa then -5
  else 0

/-! Concrete test fixtures.  `docs/data/analysis/scoring.json` is data, not
part of the sources; these rules reproduce the league weights hardcoded in
the analysis scripts and serve only as concrete inputs for witnesses and
counterexamples. -/

/-- Fields: yards_per, td, int, two_pt, bonus_400_plus_yards. -/
def samplePassing : PassingRules := ⟨some (1/20), some 4, some (-2), some 2, some 1⟩

/-- Fields: yards_per, td, two_pt, first_down, bonus_100_to_199_yards. -/
def sampleRushing : RushingRules := ⟨some (1/10), some 6, some 2, some 1, some 1⟩

/-- Fields: yards_per, reception, td, two_pt, first_down, bonus_200_plus_yards. -/
def sampleReceiving : ReceivingRules := ⟨some (1/10), some 1, some 6, some 2, some (1/2), some 1⟩

def sampleTurnovers : TurnoverRules := ⟨some (-2)⟩

/-- Fields: kick, punt, int, fumble, blocked-kick return TDs, two-pt return,
one-point safety. -/
def sampleReturns : ReturnRules := ⟨some 6, some 6, some 6, some 6, some 6, some 2, some 1⟩

/-- Fields: pat_made, fg_miss, fg_0_39, fg_40_49, fg_50_59, fg_60_plus. -/
def sampleKicking : KickingRules := ⟨some 1, some (-1), some 3, some 4, some 5, some 6⟩

/-- The points-allowed buckets of the waiver-wire table, as min/max/points. -/
def samplePaBuckets : List Bucket :=
  [⟨none, some 0, 5⟩, ⟨some 1, some 6, 4⟩, ⟨some 7, some 13, 3⟩, ⟨some 14, some 17, 1⟩,
   ⟨some 18, some 27, 0⟩, ⟨some 28, some 34, -1⟩, ⟨some 35, some 45, -3⟩, ⟨some 46, none, -5⟩]

/-- A yards-allowed bucket table fixture. -/
def sampleYaBuckets : List Bucket :=
  [⟨none, some 99, 5⟩, ⟨some 100, some 199, 3⟩, ⟨some 200, some 299, 0⟩, ⟨some 300, none, -1⟩]

/-- Fields: sack, block, interception, fumble_recovery, safety, return TDs,
points-allowed buckets, yards-allowed buckets. -/
def sampleDst : DstRules :=
  ⟨some 1, some 2, some 2, some 2, some 2, ⟨some 6, some 6, some 6, some 6, some 6⟩,
   samplePaBuckets, sampleYaBuckets⟩

/-- A complete rules fixture (all required keys present). -/
def sampleRules : ScoringRules :=
  ⟨⟨samplePassing, sampleRushing, sampleReceiving, sampleTurnovers, sampleReturns⟩,
   sampleKicking, sampleDst⟩

/-- A rules fixture whose rushing linear weights are zero and whose rushing
bonus is one point, isolating the bonus contribution. -/
def bonusOnlyRushing : RushingRules := ⟨some 0, some 0, some 0, some 0, some 1⟩

/-- `sampleRules` with `bonusOnlyRushing` substituted. -/
def bonusOnlyRules : ScoringRules :=
  ⟨⟨samplePassing, bonusOnlyRushing, sampleReceiving, sampleTurnovers, sampleReturns⟩,
   sampleKicking, sampleDst⟩

/-- The row with no cells at all. -/
def emptyRow : StatRow := []

/-- A row whose only stat is 250 rushing yards. -/
def rush250Row : StatRow := [("rushing_yards", Cell.num 250)]

/-! `apply_scoring` from `src/pipeline/utils.py`: works on a copy of the
DataFrame, computes the per-row score with the row's value in the position
column (Python `str(...)` of the cell, `None` when the column is absent),
and assigns the output column — overwriting it when it already exists,
appending it otherwise.  A DataFrame is a list of rows; a raised exception
anywhere yields `none` for the whole call. -/

/-- The `pos` argument `_row_calc` passes for one row:
`str(row.get(position_col, "")) if position_col in row else None`. -/
def posArg (row : StatRow) (position_col : String) : Option String :=
  match lookupCell row position_col with
  | some (Cell.str v) => some v
  | some (Cell.num q) => some (toString q)
  | none => none

/-- Column assignment `df[col] = v` at row level: replace the cell in place
when the column exists, append it otherwise. -/
def setCell (row : StatRow) (col : String) (c : Cell) : StatRow :=
  if (lookupCell row col).isSome
  then row.map (fun kv => if kv.1 = col then (col, c) else kv)
  else row ++ [(col, c)]

/-- `apply_scoring(df, position_col, scoring, out_col)` (arguments reordered
so the DataFrame comes last). -/
def apply_scoring (position_col : String) (s : ScoringRules) (out_col : String) :
    List StatRow → Option (List StatRow)
  | [] => some []
  | row :: rest =>
    match calculate_fantasy_points row (posArg row position_col) s,
          apply_scoring position_col s out_col rest with
    | some v, some rest2 => some (setCell row out_col (Cell.num v) :: rest2)
    | _, _ => none

/-- The per-row relation the amended frame claim asserts: the output row is
the input row with exactly the scored cell appended. -/
def scoredRowRel (position_col : String) (s : ScoringRules) (out_col : String)
    (row row2 : StatRow) : Prop :=
  ∃ v, calculate_fantasy_points row (posArg row position_col) s = some v
    ∧ row2 = row ++ [(out_col, Cell.num v)]

/-! VORP replacement-value logic from `src/analysis/vorp_calculator.py`
(`main`, lines 59-67): sort a position's players by points per game
descending, take the ppg at the 1-indexed cutoff rank when strictly more
players than the cutoff exist (`len(pos_df) > rank_cutoff`), else `0`;
every player's VORP is their ppg minus that replacement value. -/

/-- Insert into a list sorted by ppg descending. -/
def insertDesc (p : String × ℚ) : List (String × ℚ) → List (String × ℚ)
  | [] => [p]
  | q :: qs => if q.2 < p.2 then p :: q :: qs else q :: insertDesc p qs

/-- `sort_values(by=ppg, ascending=False)`. -/
def sortPpgDesc (l : List (String × ℚ)) : List (String × ℚ) := l.foldr insertDesc []

/-- `replacement_value`: `pos_df.loc[rank_cutoff - 1, ppg]` when
`len(pos_df) > rank_cutoff`, else `0`. -/
def replacementValue (cutoff : ℕ) (sorted : List (String × ℚ)) : ℚ :=
  if cutoff < sorted.length then ((sorted.get? (cutoff - 1)).map Prod.snd).getD 0 else 0

/-- Per-position VORP records `(player, ppg, vorp)`. -/
def vorpForPosition (cutoff : ℕ) (players : List (String × ℚ)) : List (String × ℚ × ℚ) :=
  let sorted := sortPpgDesc players
  let repl := replacementValue cutoff sorted
  sorted.map (fun p => (p.1, p.2, p.2 - repl))

/-! Tier generation from `src/analysis/draft_tier_generator.py`
(`generate_tiers`, lines 26-46).  The source computes the threshold offsets
from the pandas standard deviation of ppg (a floating-point square root);
the tier machinery is embedded with that deviation as an arbitrary `ℚ`
parameter, so every theorem below holds for every possible value of it. -/

/-- `pos_df['ppg'].max()` over a non-empty list. -/
def topPpg : List (String × ℚ) → ℚ
  | [] => 0
  | p :: ps => (ps.map Prod.snd).foldl max p.2

/-- `[top_ppg - (i * ppg_std * 0.75) for i in range(1, num_tiers + 1)]`. -/
def tierThresholds (top dev : ℚ) (numTiers : ℕ) : List ℚ :=
  (List.range numTiers).map (fun i : ℕ => top - (((i : ℕ) + 1 : ℕ) : ℚ) * dev * (3/4))

/-- `assign_tier`'s loop: first threshold (1-indexed from `i + 1`) the ppg
meets or exceeds; `num_tiers` when none is met. -/
def assignTierFrom (ppg : ℚ) (numTiers : ℕ) : List ℚ → ℕ → ℕ
  | [], _ => numTiers
  | t :: rest, i => if t ≤ ppg then i + 1 else assignTierFrom ppg numTiers rest (i + 1)

/-- `generate_tiers`: empty input produces an empty tier set; otherwise each
player is tagged `(name, ppg, tier)`. -/
def generate_tiers (players : List (String × ℚ)) (dev : ℚ) (numTiers : ℕ) :
    List (String × ℚ × ℕ) :=
  if players = [] then []
  else
    let th := tierThresholds (topPpg players) dev numTiers
    players.map (fun p => (p.1, p.2, assignTierFrom p.2 numTiers th 0))

/-- The property claim C7 asserts of one tiered entry `(name, ppg, tier)`:
the tier lies in `[1, 6]` and is the lowest-indexed tier whose boundary the
ppg meets or exceeds, else tier 6. -/
def tierSpec (players : List (String × ℚ)) (dev : ℚ) (e : String × ℚ × ℕ) : Prop :=
  (1 ≤ e.2.2 ∧ e.2.2 ≤ 6)
  ∧ ((∃ k t, e.2.2 = k + 1 ∧ (tierThresholds (topPpg players) dev 6).get? k = some t
        ∧ t ≤ e.2.1
        ∧ ∀ j u, j < k → (tierThresholds (topPpg players) dev 6).get? j = some u → e.2.1 < u)
     ∨ (e.2.2 = 6
        ∧ ∀ j u, (tierThresholds (topPpg players) dev 6).get? j = some u → e.2.1 < u))

/-! Consistency analyzer from `src/analysis/consistency_analyzer.py`:
per-player games played in the analysis window, then the minimum-games
filter `final_df[final_df['games_played'] >= MIN_GAMES_PLAYED]` (line 73). -/

structure GameRow where
  player_id : String
  season : ℤ
  week : ℤ
deriving DecidableEq

/-- `df[df['season'].isin(ANALYSIS_SEASONS)]`. -/
def windowRows (rows : List GameRow) (seasons : List ℤ) : List GameRow :=
  rows.filter (fun r => decide (r.season ∈ seasons))

/-- `games_played=('week', 'count')`: the number of the player's rows. -/
def gamesPlayed (rows : List GameRow) (pid : String) : ℕ :=
  (rows.filter (fun r => decide (r.player_id = pid))).length

/-- The distinct player ids, in first-appearance order (the groupby keys). -/
def playerIds (rows : List GameRow) : List String :=
  (rows.map GameRow.player_id).dedup

/-- The consistency output restricted to the claim's concern: one record per
grouped player, kept iff games played meets the floor. -/
def consistencyOutput (rows : List GameRow) (seasons : List ℤ) (minGames : ℕ) :
    List (String × ℕ) :=
  let w := windowRows rows seasons
  ((playerIds w).map (fun pid => (pid, gamesPlayed w pid))).filter
    (fun p => decide (minGames ≤ p.2))

/-! Matchup projector from `src/analysis/matchup_analyzer.py` (`main`,
lines 64-100): per roster player, find the upcoming game of the player's
team; no game is the bye-week branch (lines 72-75). -/

structure Game where
  home_team : String
  away_team : String
deriving DecidableEq

structure DefRow where
  team : String
  position : String
  ppg_allowed : ℚ
  rank : ℚ
deriving DecidableEq

structure MatchupEntry where
  player : String
  opponent : String
  rating : String
  details : String
  player_ppg : ℚ
  ppg_allowed : ℚ
  projection : ℚ
deriving DecidableEq

/-- The first scheduled game involving `team`
(`upcoming_games[(home == team) | (away == team)]`, first row). -/
def gameFor (team : String) (upcoming : List Game) : Option Game :=
  upcoming.find? (fun g => decide (g.home_team = team) || decide (g.away_team = team))

/-- The five ordinal rating bands by defensive rank. -/
def ratingForRank (rank : ℚ) : String :=
  if rank ≤ 5 then "Great"
  else if rank ≤ 12 then "Good"
  else if rank ≤ 20 then "Average"
  else if rank ≤ 28 then "Bad"
  else "Very Bad"

/-- League-average points allowed to a position
(`points_allowed[position == pos]['ppg_allowed'].mean()`). -/
def leagueAvgAllowed (pa : List DefRow) (pos : String) : ℚ :=
  let l := (pa.filter (fun d => decide (d.position = pos))).map DefRow.ppg_allowed
  l.sum / l.length

/-- One player's matchup record.  The bye-week branch emits the sentinel
opponent `"BYE WEEK"` and rating `"N/A"`; the missing-ranking branch emits
`"Average"`; otherwise the rank is banded and the projection scaled.  (The
source's `details` f-string interpolates the rank; its exact text is not
load-bearing and is abbreviated here.) -/
def analyze_matchup (playerName team pos : String) (avg : ℚ) (upcoming : List Game)
    (pa : List DefRow) : MatchupEntry :=
  match gameFor team upcoming with
  | none => ⟨playerName, "BYE WEEK", "N/A", "Player is on a bye week.", avg, 0, 0⟩
  | some g =>
    let opponent := if g.home_team = team then g.away_team else g.home_team
    match pa.find? (fun d => decide (d.team = opponent) && decide (d.position = pos)) with
    | none => ⟨playerName, opponent, "Average", "No ranking data available.", avg, avg, avg⟩
    | some d =>
      let proj := avg * (d.ppg_allowed / leagueAvgAllowed pa pos)
      ⟨playerName, opponent, ratingForRank d.rank, "ranked matchup", avg, d.ppg_allowed, proj⟩

/-! Helper lemmas about the embedding. -/

theorem lookupCell_mem (n : String) (c : Cell) :
    ∀ row : StatRow, lookupCell row n = some c → (n, c) ∈ row := by
  intro row
  induction row with
  | nil => intro h; simp [lookupCell] at h
  | cons kv rest ih =>
    intro h
    rw [lookupCell] at h
    by_cases hk : kv.1 = n
    · rw [if_pos hk] at h
      have hc : kv.2 = c := Option.some.inj h
      have : kv = (n, c) := by cases kv; simp_all
      rw [← this]
      exact List.mem_cons_self kv rest
    · rw [if_neg hk] at h
      exact List.mem_cons_of_mem _ (ih h)

theorem _g_eq_zero (row : StatRow) (hz : allStatsZero row) : ∀ names, _g row names = 0
  | [] => rfl
  | n :: rest => by
    have ih := _g_eq_zero row hz rest
    cases h : lookupCell row n with
    | none => simp [_g, h, ih]
    | some c =>
      cases c with
      | num q =>
        have hq : q = 0 := hz (n, Cell.num q) (lookupCell_mem n (Cell.num q) row h) q rfl
        simp [_g, h, hq]
      | str s => simp [_g, h, ih]

theorem pyOr_some (p : String) (row : StatRow) (hp : p ≠ "") : pyOr (some p) row = p := by
  simp [pyOr, hp]

theorem pyUpper_DST : pyUpper "DST" = "DST" := by decide

theorem pyUpper_K : pyUpper "K" = "K" := by decide

theorem pyUpper_FLEX : pyUpper "FLEX" = "FLEX" := by decide

theorem round2_zero : round2 0 = 0 := by norm_num [round2, roundHalfEven]

theorem passing_some_keys {row : StatRow} {s : ScoringRules} {v : ℚ}
    (h : _score_passing row s = some v) : passingKeys s := by
  simp only [_score_passing, Option.bind_eq_some] at h
  obtain ⟨yp, hyp, td, htd, iw, hiw, tp, htp, -⟩ := h
  exact ⟨by simp [hyp], by simp [htd], by simp [hiw], by simp [htp]⟩

theorem rushing_some_keys {row : StatRow} {s : ScoringRules} {v : ℚ}
    (h : _score_rushing row s = some v) : rushingKeys s := by
  simp only [_score_rushing, Option.bind_eq_some] at h
  obtain ⟨yp, hyp, td, htd, tp, htp, fd, hfd, -⟩ := h
  exact ⟨by simp [hyp], by simp [htd], by simp [htp], by simp [hfd]⟩

theorem receiving_some_keys {row : StatRow} {s : ScoringRules} {v : ℚ}
    (h : _score_receiving row s = some v) : receivingKeys s := by
  simp only [_score_receiving, Option.bind_eq_some] at h
  obtain ⟨yp, hyp, rc, hrc, td, htd, tp, htp, fd, hfd, -⟩ := h
  exact ⟨by simp [hyp], by simp [hrc], by simp [htd], by simp [htp], by simp [hfd]⟩

theorem turnovers_some_keys {row : StatRow} {s : ScoringRules} {v : ℚ}
    (h : _score_turnovers_and_returns row s = some v) : turnoverKeys s := by
  simp only [_score_turnovers_and_returns, Option.bind_eq_some] at h
  obtain ⟨fl, hfl, kr, hkr, pr, hpr, ir, hir, fr, hfr, bk, hbk, tpr, htpr, ops, hops, -⟩ := h
  exact ⟨by simp [hfl], by simp [hkr], by simp [hpr], by simp [hir], by simp [hfr],
    by simp [hbk], by simp [htpr], by simp [hops]⟩

theorem kicker_some_keys {row : StatRow} {s : ScoringRules} {v : ℚ}
    (h : _score_kicker row s = some v) : kickerKeys s := by
  simp only [_score_kicker, Option.bind_eq_some] at h
  obtain ⟨pm, hpm, fm, hfm, f0, hf0, f40, hf40, f50, hf50, f60, hf60, -⟩ := h
  exact ⟨by simp [hpm], by simp [hfm], by simp [hf0], by simp [hf40], by simp [hf50],
    by simp [hf60]⟩

theorem dst_some_keys {row : StatRow} {s : ScoringRules} {v : ℚ}
    (h : _score_dst row s = some v) : dstKeys s := by
  simp only [_score_dst, Option.bind_eq_some] at h
  obtain ⟨w1, h1, w2, h2, w3, h3, w4, h4, w5, h5, w6, h6, w7, h7, w8, h8, w9, h9,
    w10, h10, -⟩ := h
  exact ⟨by simp [h1], by simp [h2], by simp [h3], by simp [h4], by simp [h5],
    by simp [h6], by simp [h7], by simp [h8], by simp [h9], by simp [h10]⟩

theorem skill_some_offenseKeys {row : StatRow} {s : ScoringRules} {v : ℚ}
    (h : skill_points row s = some v) : offenseKeys s := by
  simp only [skill_points, Option.bind_eq_some] at h
  obtain ⟨a, ha, b, hb, c, hc, d, hd, -⟩ := h
  exact ⟨passing_some_keys ha, rushing_some_keys hb, receiving_some_keys hc,
    turnovers_some_keys hd⟩

theorem passing_isSome (row : StatRow) {s : ScoringRules} (h : passingKeys s) :
    (_score_passing row s).isSome := by
  obtain ⟨h1, h2, h3, h4⟩ := h
  obtain ⟨yp, hyp⟩ := Option.isSome_iff_exists.mp h1
  obtain ⟨td, htd⟩ := Option.isSome_iff_exists.mp h2
  obtain ⟨iw, hiw⟩ := Option.isSome_iff_exists.mp h3
  obtain ⟨tp, htp⟩ := Option.isSome_iff_exists.mp h4
  simp [_score_passing, hyp, htd, hiw, htp]

theorem rushing_isSome (row : StatRow) {s : ScoringRules} (h : rushingKeys s) :
    (_score_rushing row s).isSome := by
  obtain ⟨h1, h2, h3, h4⟩ := h
  obtain ⟨yp, hyp⟩ := Option.isSome_iff_exists.mp h1
  obtain ⟨td, htd⟩ := Option.isSome_iff_exists.mp h2
  obtain ⟨tp, htp⟩ := Option.isSome_iff_exists.mp h3
  obtain ⟨fd, hfd⟩ := Option.isSome_iff_exists.mp h4
  simp [_score_rushing, hyp, htd, htp, hfd]

theorem receiving_isSome (row : StatRow) {s : ScoringRules} (h : receivingKeys s) :
    (_score_receiving row s).isSome := by
  obtain ⟨h1, h2, h3, h4, h5⟩ := h
  obtain ⟨yp, hyp⟩ := Option.isSome_iff_exists.mp h1
  obtain ⟨rc, hrc⟩ := Option.isSome_iff_exists.mp h2
  obtain ⟨td, htd⟩ := Option.isSome_iff_exists.mp h3
  obtain ⟨tp, htp⟩ := Option.isSome_iff_exists.mp h4
  obtain ⟨fd, hfd⟩ := Option.isSome_iff_exists.mp h5
  simp [_score_receiving, hyp, hrc, htd, htp, hfd]

theorem turnovers_isSome (row : StatRow) {s : ScoringRules} (h : turnoverKeys s) :
    (_score_turnovers_and_returns row s).isSome := by
  obtain ⟨h1, h2, h3, h4, h5, h6, h7, h8⟩ := h
  obtain ⟨fl, hfl⟩ := Option.isSome_iff_exists.mp h1
  obtain ⟨kr, hkr⟩ := Option.isSome_iff_exists.mp h2
  obtain ⟨pr, hpr⟩ := Option.isSome_iff_exists.mp h3
  obtain ⟨ir, hir⟩ := Option.isSome_iff_exists.mp h4
  obtain ⟨fr, hfr⟩ := Option.isSome_iff_exists.mp h5
  obtain ⟨bk, hbk⟩ := Option.isSome_iff_exists.mp h6
  obtain ⟨tpr, htpr⟩ := Option.isSome_iff_exists.mp h7
  obtain ⟨ops, hops⟩ := Option.isSome_iff_exists.mp h8
  simp [_score_turnovers_and_returns, hfl, hkr, hpr, hir, hfr, hbk, htpr, hops]

theorem skill_isSome (row : StatRow) {s : ScoringRules} (h : offenseKeys s) :
    (skill_points row s).isSome := by
  obtain ⟨h1, h2, h3, h4⟩ := h
  obtain ⟨a, ha⟩ := Option.isSome_iff_exists.mp (passing_isSome row h1)
  obtain ⟨b, hb⟩ := Option.isSome_iff_exists.mp (rushing_isSome row h2)
  obtain ⟨c, hc⟩ := Option.isSome_iff_exists.mp (receiving_isSome row h3)
  obtain ⟨d, hd⟩ := Option.isSome_iff_exists.mp (turnovers_isSome row h4)
  simp [skill_points, ha, hb, hc, hd]

theorem passing_zero {row : StatRow} {s : ScoringRules} (hz : allStatsZero row)
    (h : passingKeys s) : _score_passing row s = some 0 := by
  obtain ⟨h1, h2, h3, h4⟩ := h
  obtain ⟨yp, hyp⟩ := Option.isSome_iff_exists.mp h1
  obtain ⟨td, htd⟩ := Option.isSome_iff_exists.mp h2
  obtain ⟨iw, hiw⟩ := Option.isSome_iff_exists.mp h3
  obtain ⟨tp, htp⟩ := Option.isSome_iff_exists.mp h4
  have hg := _g_eq_zero row hz
  norm_num [_score_passing, hyp, htd, hiw, htp, hg]

theorem rushing_zero {row : StatRow} {s : ScoringRules} (hz : allStatsZero row)
    (h : rushingKeys s) : _score_rushing row s = some 0 := by
  obtain ⟨h1, h2, h3, h4⟩ := h
  obtain ⟨yp, hyp⟩ := Option.isSome_iff_exists.mp h1
  obtain ⟨td, htd⟩ := Option.isSome_iff_exists.mp h2
  obtain ⟨tp, htp⟩ := Option.isSome_iff_exists.mp h3
  obtain ⟨fd, hfd⟩ := Option.isSome_iff_exists.mp h4
  have hg := _g_eq_zero row hz
  norm_num [_score_rushing, hyp, htd, htp, hfd, hg]

theorem receiving_zero {row : StatRow} {s : ScoringRules} (hz : allStatsZero row)
    (h : receivingKeys s) : _score_receiving row s = some 0 := by
  obtain ⟨h1, h2, h3, h4, h5⟩ := h
  obtain ⟨yp, hyp⟩ := Option.isSome_iff_exists.mp h1
  obtain ⟨rc, hrc⟩ := Option.isSome_iff_exists.mp h2
  obtain ⟨td, htd⟩ := Option.isSome_iff_exists.mp h3
  obtain ⟨tp, htp⟩ := Option.isSome_iff_exists.mp h4
  obtain ⟨fd, hfd⟩ := Option.isSome_iff_exists.mp h5
  have hg := _g_eq_zero row hz
  norm_num [_score_receiving, hyp, hrc, htd, htp, hfd, hg]

theorem turnovers_zero {row : StatRow} {s : ScoringRules} (hz : allStatsZero row)
    (h : turnoverKeys s) : _score_turnovers_and_returns row s = some 0 := by
  obtain ⟨h1, h2, h3, h4, h5, h6, h7, h8⟩ := h
  obtain ⟨fl, hfl⟩ := Option.isSome_iff_exists.mp h1
  obtain ⟨kr, hkr⟩ := Option.isSome_iff_exists.mp h2
  obtain ⟨pr, hpr⟩ := Option.isSome_iff_exists.mp h3
  obtain ⟨ir, hir⟩ := Option.isSome_iff_exists.mp h4
  obtain ⟨fr, hfr⟩ := Option.isSome_iff_exists.mp h5
  obtain ⟨bk, hbk⟩ := Option.isSome_iff_exists.mp h6
  obtain ⟨tpr, htpr⟩ := Option.isSome_iff_exists.mp h7
  obtain ⟨ops, hops⟩ := Option.isSome_iff_exists.mp h8
  have hg := _g_eq_zero row hz
  norm_num [_score_turnovers_and_returns, hfl, hkr, hpr, hir, hfr, hbk, htpr, hops, hg]

theorem kicker_zero {row : StatRow} {s : ScoringRules} (hz : allStatsZero row)
    (h : kickerKeys s) : _score_kicker row s = some 0 := by
  obtain ⟨h1, h2, h3, h4, h5, h6⟩ := h
  obtain ⟨pm, hpm⟩ := Option.isSome_iff_exists.mp h1
  obtain ⟨fm, hfm⟩ := Option.isSome_iff_exists.mp h2
  obtain ⟨f0, hf0⟩ := Option.isSome_iff_exists.mp h3
  obtain ⟨f40, hf40⟩ := Option.isSome_iff_exists.mp h4
  obtain ⟨f50, hf50⟩ := Option.isSome_iff_exists.mp h5
  obtain ⟨f60, hf60⟩ := Option.isSome_iff_exists.mp h6
  have hg := _g_eq_zero row hz
  norm_num [_score_kicker, hpm, hfm, hf0, hf40, hf50, hf60, hg]

theorem dst_all_zero {row : StatRow} {s : ScoringRules} {qa qb : ℚ} (hz : allStatsZero row)
    (h : dstKeys s) (hqa : bucketScore 0 s.dst.points_allowed = some qa)
    (hqb : bucketScore 0 s.dst.yards_allowed = some qb) :
    _score_dst row s = some (qa + qb) := by
  obtain ⟨h1, h2, h3, h4, h5, h6, h7, h8, h9, h10⟩ := h
  obtain ⟨w1, hw1⟩ := Option.isSome_iff_exists.mp h1
  obtain ⟨w2, hw2⟩ := Option.isSome_iff_exists.mp h2
  obtain ⟨w3, hw3⟩ := Option.isSome_iff_exists.mp h3
  obtain ⟨w4, hw4⟩ := Option.isSome_iff_exists.mp h4
  obtain ⟨w5, hw5⟩ := Option.isSome_iff_exists.mp h5
  obtain ⟨w6, hw6⟩ := Option.isSome_iff_exists.mp h6
  obtain ⟨w7, hw7⟩ := Option.isSome_iff_exists.mp h7
  obtain ⟨w8, hw8⟩ := Option.isSome_iff_exists.mp h8
  obtain ⟨w9, hw9⟩ := Option.isSome_iff_exists.mp h9
  obtain ⟨w10, hw10⟩ := Option.isSome_iff_exists.mp h10
  have hg := _g_eq_zero row hz
  norm_num [_score_dst, hw1, hw2, hw3, hw4, hw5, hw6, hw7, hw8, hw9, hw10, hg, hqa, hqb]

/-- C1 counterexample: the claim "for any position (including K and DST) an
all-zero-or-absent StatRow scores exactly 0.00" is false at the DST path:
an entirely empty row scored as DST with the league bucket tables falls into
the shutout points-allowed bucket and the lowest yards-allowed bucket and
scores 10.00, not 0.00. -/
theorem c1_counterexample :
    calculate_fantasy_points emptyRow (some "DST") sampleRules = some 10
    ∧ (10 : ℚ) ≠ 0 := by
  have h1 : ("DST" : String) ≠ "" := by decide
  constructor
  · norm_num [calculate_fantasy_points, pyOr, h1, pyUpper_DST, emptyRow, sampleRules, sampleDst,
      samplePaBuckets, sampleYaBuckets, _score_dst, bucketScore, _g, lookupCell,
      al_points_allowed, al_yards_allowed, al_dst_sacks, al_dst_int, al_dst_fr,
      al_dst_safety, al_dst_block, al_dst_kr_td, al_dst_pr_td, al_dst_int_ret_td,
      al_dst_fum_ret_td, al_dst_blk_kick_ret_td, round2, roundHalfEven]
  · norm_num

/-- C1 (amended): for every StatRow whose stat fields are all zero or absent
and every rule set whose required weights are present, scoring returns
exactly 0.00 for every offensive (non-DST, non-K) position and for K; a DST
row instead scores the rounded sum of the zero-value points-allowed and
yards-allowed bucket awards, which is only 0.00 when those bucket awards
cancel (the shutout bucket normally awards positive points). -/
theorem c1_all_zero_score (row : StatRow) (s : ScoringRules) (p : String) (qa qb : ℚ)
    (hz : allStatsZero row) (hp : p ≠ "")
    (hoff : offenseKeys s) (hk : kickerKeys s) (hd : dstKeys s)
    (hqa : bucketScore 0 s.dst.points_allowed = some qa)
    (hqb : bucketScore 0 s.dst.yards_allowed = some qb) :
    (pyUpper p ≠ "DST" → pyUpper p ≠ "K" →
      calculate_fantasy_points row (some p) s = some 0)
    ∧ calculate_fantasy_points row (some "K") s = some 0
    ∧ calculate_fantasy_points row (some "DST") s = some (round2 (qa + qb)) := by
  obtain ⟨hpa, hru, hre, htu⟩ := hoff
  have hP := passing_zero hz hpa
  have hR := rushing_zero hz hru
  have hRe := receiving_zero hz hre
  have hT := turnovers_zero hz htu
  have hK := kicker_zero hz hk
  have hD := dst_all_zero hz hd hqa hqb
  refine ⟨?_, ?_, ?_⟩
  · intro hnd hnk
    simp [calculate_fantasy_points, pyOr_some p row hp, hnd, hnk, skill_points,
      hP, hR, hRe, hT, round2_zero]
  · have hke : ("K" : String) ≠ "" := by decide
    have hkd : ("K" : String) ≠ "DST" := by decide
    simp [calculate_fantasy_points, pyOr_some "K" row hke, pyUpper_K, hkd, hK, round2_zero]
  · have hde : ("DST" : String) ≠ "" := by decide
    simp [calculate_fantasy_points, pyOr_some "DST" row hde, pyUpper_DST, hD]

/-- C1 witness: the amended theorem applied to the empty row, the position
"WR", and the sample rules, whose zero-value buckets award 5 + 5 points. -/
theorem c1_witness :
    allStatsZero emptyRow ∧ offenseKeys sampleRules
    ∧ calculate_fantasy_points emptyRow (some "WR") sampleRules = some 0
    ∧ calculate_fantasy_points emptyRow (some "DST") sampleRules = some (round2 (5 + 5)) := by
  have hz : allStatsZero emptyRow := by simp [allStatsZero, emptyRow]
  have hoff : offenseKeys sampleRules := by
    refine ⟨⟨?_, ?_, ?_, ?_⟩, ⟨?_, ?_, ?_, ?_⟩, ⟨?_, ?_, ?_, ?_, ?_⟩,
      ⟨?_, ?_, ?_, ?_, ?_, ?_, ?_, ?_⟩⟩ <;> simp [sampleRules, samplePassing, sampleRushing,
        sampleReceiving, sampleTurnovers, sampleReturns]
  have hk : kickerKeys sampleRules := by
    refine ⟨?_, ?_, ?_, ?_, ?_, ?_⟩ <;> simp [sampleRules, sampleKicking]
  have hd : dstKeys sampleRules := by
    refine ⟨?_, ?_, ?_, ?_, ?_, ?_, ?_, ?_, ?_, ?_⟩ <;> simp [sampleRules, sampleDst]
  have hqa : bucketScore 0 sampleRules.dst.points_allowed = some 5 := by
    norm_num [sampleRules, sampleDst, samplePaBuckets, bucketScore]
  have hqb : bucketScore 0 sampleRules.dst.yards_allowed = some 5 := by
    norm_num [sampleRules, sampleDst, sampleYaBuckets, bucketScore]
  have h := c1_all_zero_score emptyRow sampleRules "WR" 5 5 hz (by decide) hoff hk hd hqa hqb
  exact ⟨hz, hoff, h.1 (by decide) (by decide), h.2.2⟩

/-- C2 counterexample: with rushing linear weights zero and a configured
one-point rushing bonus, a row with 250 rushing yards (which meets the
claimed 100-yard floor) scores 0, not the claimed linear-plus-one-bonus 1:
the engine's band `100 <= yards < 200` excludes 250 entirely. -/
theorem c2_counterexample :
    _score_rushing rush250Row bonusOnlyRules = some 0
    ∧ bonusOnlyRules.offense.rushing.bonus_100_to_199_yards = some 1
    ∧ (0 : ℚ) ≠ 0 + 1 := by
  refine ⟨?_, by simp [bonusOnlyRules, bonusOnlyRushing], by norm_num⟩
  norm_num [_score_rushing, bonusOnlyRules, bonusOnlyRushing, rush250Row, _g, lookupCell,
    al_rush_yds, al_rush_tds, al_two_pt_rush, al_rush_fd]

/-- C2 (amended): in the shared scoring engine the rushing bonus is a single
additive term awarded after the linear terms exactly once when the rushing
yardage lies in the configured band `100 <= yards < 200`, and zero times
otherwise — in particular a 250-yard row earns no rushing bonus there, while
the standalone waiver-wire scorer awards exactly one bonus point for any
rushing yardage of at least 100. -/
theorem c2_rushing_bonus (row : StatRow) (s : ScoringRules) (h : rushingKeys s) :
    _score_rushing row s = some (rushingLinear row s
      + (if 100 ≤ _g row al_rush_yds ∧ _g row al_rush_yds < 200
         then (s.offense.rushing.bonus_100_to_199_yards).getD 0 else 0))
    ∧ waiverBonus 0 250 0 = 1 := by
  constructor
  · obtain ⟨h1, h2, h3, h4⟩ := h
    obtain ⟨yp, hyp⟩ := Option.isSome_iff_exists.mp h1
    obtain ⟨td, htd⟩ := Option.isSome_iff_exists.mp h2
    obtain ⟨tp, htp⟩ := Option.isSome_iff_exists.mp h3
    obtain ⟨fd, hfd⟩ := Option.isSome_iff_exists.mp h4
    by_cases hc : 100 ≤ _g row al_rush_yds ∧ _g row al_rush_yds < 200
    · simp [_score_rushing, hyp, htd, htp, hfd, rushingLinear, hc]
    · simp [_score_rushing, hyp, htd, htp, hfd, rushingLinear, hc]
  · norm_num [waiverBonus]

/-- C2 witness: the amended theorem applied to the 250-rushing-yard row and
the sample rules (outside the band, so the bonus term is zero). -/
theorem c2_witness :
    rushingKeys sampleRules
    ∧ (_score_rushing rush250Row sampleRules = some (rushingLinear rush250Row sampleRules
        + (if 100 ≤ _g rush250Row al_rush_yds ∧ _g rush250Row al_rush_yds < 200
           then (sampleRules.offense.rushing.bonus_100_to_199_yards).getD 0 else 0))
       ∧ waiverBonus 0 250 0 = 1) := by
  have h : rushingKeys sampleRules := by
    refine ⟨?_, ?_, ?_, ?_⟩ <;> simp [sampleRules, sampleRushing]
  exact ⟨h, c2_rushing_bonus rush250Row sampleRules h⟩

theorem bucketScore_eq_spec (v : ℚ) :
    ∀ bs : List Bucket, wellFormedBuckets bs → bucketScore v bs = some (specBucketValue v bs) := by
  intro bs
  induction bs with
  | nil => intro _; rfl
  | cons b rest ih =>
    intro hwf
    have hb := hwf b (List.mem_cons_self b rest)
    have hrest : wellFormedBuckets rest := fun x hx => hwf x (List.mem_cons_of_mem _ hx)
    rcases hmn : b.min with _ | mn <;> rcases hmx : b.max with _ | mx
    · simp [hmn, hmx] at hb
    · by_cases hv : v ≤ mx
      · have hi : inBucket v b = true := by simp [inBucket, hmn, hmx, hv]
        simp [bucketScore, hmn, hmx, hv, specBucketValue, List.find?, hi]
      · have hi : inBucket v b = false := by simp [inBucket, hmn, hmx, hv]
        simp [bucketScore, hmn, hmx, hv, specBucketValue, List.find?, hi, ih hrest]
    · by_cases hv : mn ≤ v
      · have hi : inBucket v b = true := by simp [inBucket, hmn, hmx, hv]
        simp [bucketScore, hmn, hmx, hv, specBucketValue, List.find?, hi]
      · have hi : inBucket v b = false := by simp [inBucket, hmn, hmx, hv]
        simp [bucketScore, hmn, hmx, hv, specBucketValue, List.find?, hi, ih hrest]
    · by_cases hv : mn ≤ v ∧ v ≤ mx
      · have hi : inBucket v b = true := by simp [inBucket, hmn, hmx, hv.1, hv.2]
        simp [bucketScore, hmn, hmx, hv, specBucketValue, List.find?, hi]
      · have hi : inBucket v b = false := by
          simp only [inBucket, hmn, hmx]
          rcases not_and_or.mp hv with hl | hr
          · simp [hl]
          · simp [hr]
        simp [bucketScore, hmn, hmx, hv, specBucketValue, List.find?, hi, ih hrest]

/-- C3: for every DST StatRow and rule set with the DST weights present and
well-formed bucket tables, the DST score is the linear event total plus, for
each of points allowed and yards allowed, the fixed value of the first
bucket in list order whose inclusive range contains the value (`0` when no
bucket matches); hence two points-allowed values inside the same inclusive
range — such as 1 and 6 in the league table — contribute the same bucket
value, and a value in the gap of the `src/data/analysis/waiver_wire.py`
table (such as 20, with the 18-27 band missing) contributes zero. -/
theorem c3_first_bucket_scoring (row : StatRow) (s : ScoringRules) (h : dstKeys s)
    (hpa : wellFormedBuckets s.dst.points_allowed)
    (hya : wellFormedBuckets s.dst.yards_allowed) :
    _score_dst row s = some (dstLinear row s
      + specBucketValue (_g row al_points_allowed) s.dst.points_allowed
      + specBucketValue (_g row al_yards_allowed) s.dst.yards_allowed)
    ∧ specBucketValue 1 samplePaBuckets = specBucketValue 6 samplePaBuckets
    ∧ waiverPaPoints 1 = waiverPaPoints 6
    ∧ dataWaiverPaPoints 20 = 0 := by
  refine ⟨?_, ?_, ?_, ?_⟩
  · obtain ⟨h1, h2, h3, h4, h5, h6, h7, h8, h9, h10⟩ := h
    obtain ⟨w1, hw1⟩ := Option.isSome_iff_exists.mp h1
    obtain ⟨w2, hw2⟩ := Option.isSome_iff_exists.mp h2
    obtain ⟨w3, hw3⟩ := Option.isSome_iff_exists.mp h3
    obtain ⟨w4, hw4⟩ := Option.isSome_iff_exists.mp h4
    obtain ⟨w5, hw5⟩ := Option.isSome_iff_exists.mp h5
    obtain ⟨w6, hw6⟩ := Option.isSome_iff_exists.mp h6
    obtain ⟨w7, hw7⟩ := Option.isSome_iff_exists.mp h7
    obtain ⟨w8, hw8⟩ := Option.isSome_iff_exists.mp h8
    obtain ⟨w9, hw9⟩ := Option.isSome_iff_exists.mp h9
    obtain ⟨w10, hw10⟩ := Option.isSome_iff_exists.mp h10
    simp [_score_dst, hw1, hw2, hw3, hw4, hw5, hw6, hw7, hw8, hw9, hw10,
      bucketScore_eq_spec _ _ hpa, bucketScore_eq_spec _ _ hya, dstLinear]
  · norm_num [specBucketValue, samplePaBuckets, inBucket, List.find?]
  · norm_num [waiverPaPoints]
  · norm_num [dataWaiverPaPoints]

/-- C3 witness: the theorem applied to the empty row and the sample rules. -/
theorem c3_witness :
    dstKeys sampleRules ∧ wellFormedBuckets sampleRules.dst.points_allowed
    ∧ wellFormedBuckets sampleRules.dst.yards_allowed
    ∧ _score_dst emptyRow sampleRules = some (dstLinear emptyRow sampleRules
        + specBucketValue (_g emptyRow al_points_allowed) sampleRules.dst.points_allowed
        + specBucketValue (_g emptyRow al_yards_allowed) sampleRules.dst.yards_allowed) := by
  have hd : dstKeys sampleRules := by
    refine ⟨?_, ?_, ?_, ?_, ?_, ?_, ?_, ?_, ?_, ?_⟩ <;> simp [sampleRules, sampleDst]
  have hpa : wellFormedBuckets sampleRules.dst.points_allowed := by
    intro b hb
    simp only [sampleRules, sampleDst, samplePaBuckets, List.mem_cons,
      List.not_mem_nil, or_false] at hb
    rcases hb with h | h | h | h | h | h | h | h <;> simp [h]
  have hya : wellFormedBuckets sampleRules.dst.yards_allowed := by
    intro b hb
    simp only [sampleRules, sampleDst, sampleYaBuckets, List.mem_cons,
      List.not_mem_nil, or_false] at hb
    rcases hb with h | h | h | h <;> simp [h]
  exact ⟨hd, hpa, hya,
    (c3_first_bucket_scoring emptyRow sampleRules hd hpa hya).1⟩

/-- C4: scoring a row never silently substitutes a default for a required
weight: whenever `calculate_fantasy_points` returns a value, every required
weight key of the scoring path taken for that position was present
(contrapositive: a rule set missing a required weight key of the consulted
path makes the computation raise for every row, regardless of the row's
stats).  Bonus weights, read with `.get(..., 0.0)`, are not required keys. -/
theorem c4_success_requires_keys (row : StatRow) (p : String) (s : ScoringRules) (v : ℚ)
    (hp : p ≠ "") (h : calculate_fantasy_points row (some p) s = some v) :
    (pyUpper p = "DST" → dstKeys s) ∧ (pyUpper p = "K" → kickerKeys s)
    ∧ (pyUpper p ≠ "DST" → pyUpper p ≠ "K" → offenseKeys s) := by
  rw [calculate_fantasy_points, pyOr_some p row hp] at h
  refine ⟨?_, ?_, ?_⟩
  · intro hd
    rw [if_pos hd] at h
    obtain ⟨w, hw, -⟩ := Option.map_eq_some'.mp h
    exact dst_some_keys hw
  · intro hk
    by_cases hd : pyUpper p = "DST"
    · exact absurd (hd.symm.trans hk) (by decide)
    · rw [if_neg hd, if_pos hk] at h
      obtain ⟨w, hw, -⟩ := Option.map_eq_some'.mp h
      exact kicker_some_keys hw
  · intro hd hk
    rw [if_neg hd, if_neg hk] at h
    obtain ⟨w, hw, -⟩ := Option.map_eq_some'.mp h
    exact skill_some_offenseKeys hw

/-- C4 witness: the theorem applied to the empty row scored as a kicker with
the complete sample rules. -/
theorem c4_witness :
    calculate_fantasy_points emptyRow (some "K") sampleRules = some 0
    ∧ kickerKeys sampleRules := by
  have hk : kickerKeys sampleRules := by
    refine ⟨?_, ?_, ?_, ?_, ?_, ?_⟩ <;> simp [sampleRules, sampleKicking]
  have hz : allStatsZero emptyRow := by simp [allStatsZero, emptyRow]
  have hK := kicker_zero hz hk
  have hke : ("K" : String) ≠ "" := by decide
  have hkd : ("K" : String) ≠ "DST" := by decide
  have hcalc : calculate_fantasy_points emptyRow (some "K") sampleRules = some 0 := by
    simp [calculate_fantasy_points, pyOr_some "K" emptyRow hke, pyUpper_K, hkd, hK, round2_zero]
  exact ⟨hcalc,
    (c4_success_requires_keys emptyRow "K" sampleRules 0 hke hcalc).2.1 pyUpper_K⟩

theorem sample_offenseKeys : offenseKeys sampleRules := by
  refine ⟨⟨?_, ?_, ?_, ?_⟩, ⟨?_, ?_, ?_, ?_⟩, ⟨?_, ?_, ?_, ?_, ?_⟩,
    ⟨?_, ?_, ?_, ?_, ?_, ?_, ?_, ?_⟩⟩ <;> simp [sampleRules, samplePassing, sampleRushing,
      sampleReceiving, sampleTurnovers, sampleReturns]

/-- C6: a position classifier that does not resolve to any of
QB/RB/WR/TE/K/DST/FLEX is scored through the generic skill-player path, and
(required offensive weights present) never raises on account of the
position; an absent position detected as `"FLEX"` takes the same path. -/
theorem c6_unresolvable_position (row : StatRow) (s : ScoringRules) (p : String)
    (hp : p ≠ "")
    (hres : pyUpper p ∉ (["QB", "RB", "WR", "TE", "K", "DST", "FLEX"] : List String)) :
    calculate_fantasy_points row (some p) s = (skill_points row s).map round2
    ∧ (offenseKeys s → (calculate_fantasy_points row (some p) s).isSome)
    ∧ (detect_pos row = "FLEX" →
        calculate_fantasy_points row none s = (skill_points row s).map round2) := by
  have hd : pyUpper p ≠ "DST" := fun hh => hres (by simp [hh])
  have hk : pyUpper p ≠ "K" := fun hh => hres (by simp [hh])
  have h1 : calculate_fantasy_points row (some p) s = (skill_points row s).map round2 := by
    rw [calculate_fantasy_points, pyOr_some p row hp]
    rw [if_neg hd, if_neg hk]
  refine ⟨h1, ?_, ?_⟩
  · intro hoff
    obtain ⟨w, hw⟩ := Option.isSome_iff_exists.mp (skill_isSome row hoff)
    simp [h1, hw]
  · intro hdet
    have hfd : ("FLEX" : String) ≠ "DST" := by decide
    have hfk : ("FLEX" : String) ≠ "K" := by decide
    simp [calculate_fantasy_points, pyOr, hdet, pyUpper_FLEX, hfd, hfk]

/-- C6 witness: the theorem applied to the unresolvable position string
"XYZ", the empty row, and the sample rules. -/
theorem c6_witness :
    calculate_fantasy_points emptyRow (some "XYZ") sampleRules
      = (skill_points emptyRow sampleRules).map round2
    ∧ (calculate_fantasy_points emptyRow (some "XYZ") sampleRules).isSome := by
  have h := c6_unresolvable_position emptyRow sampleRules "XYZ" (by decide) (by decide)
  exact ⟨h.1, h.2.1 sample_offenseKeys⟩

/-- C5 counterexample: with a replacement cutoff of 2 and exactly two
players (at least cutoff-many players exist, ppg of the rank-2 player is 4),
the code computes replacement value 0 rather than the claimed 4, because it
requires strictly more players than the cutoff (`len(pos_df) > rank_cutoff`). -/
theorem c5_counterexample :
    (sortPpgDesc [("a", (10 : ℚ)), ("b", 4)]).length = 2
    ∧ (sortPpgDesc [("a", (10 : ℚ)), ("b", 4)]).get? (2 - 1) = some ("b", 4)
    ∧ replacementValue 2 (sortPpgDesc [("a", (10 : ℚ)), ("b", 4)]) = 0
    ∧ (0 : ℚ) ≠ 4 := by decide

/-- C5 (amended): the replacement value is the points-per-game of the player
at the cutoff rank (1-indexed in the descending ppg order) whenever strictly
more players than the cutoff exist, and zero whenever the player count is at
most the cutoff (so also in the exactly-at-cutoff case); every player's VORP
is their own ppg minus that replacement value — in particular with cutoff 11
and only 10 players every VORP equals the player's own ppg. -/
theorem c5_replacement (cutoff : ℕ) (players : List (String × ℚ)) :
    (∀ x : String × ℚ, cutoff < (sortPpgDesc players).length →
      (sortPpgDesc players).get? (cutoff - 1) = some x →
      replacementValue cutoff (sortPpgDesc players) = x.2)
    ∧ ((sortPpgDesc players).length ≤ cutoff →
      replacementValue cutoff (sortPpgDesc players) = 0)
    ∧ ∀ e ∈ vorpForPosition cutoff players,
        e.2.2 = e.2.1 - replacementValue cutoff (sortPpgDesc players) := by
  refine ⟨?_, ?_, ?_⟩
  · intro x hlen hget
    rw [replacementValue, if_pos hlen, hget]
    rfl
  · intro hlen
    rw [replacementValue, if_neg (by omega)]
  · intro e he
    simp only [vorpForPosition, List.mem_map] at he
    obtain ⟨p, hp, rfl⟩ := he
    rfl

/-- C5 witness: three players and cutoff 2, so the rank-2 ppg (4) becomes
the replacement value. -/
theorem c5_witness :
    2 < (sortPpgDesc [("a", (10 : ℚ)), ("b", 4), ("c", 2)]).length
    ∧ (sortPpgDesc [("a", (10 : ℚ)), ("b", 4), ("c", 2)]).get? (2 - 1) = some ("b", 4)
    ∧ replacementValue 2 (sortPpgDesc [("a", (10 : ℚ)), ("b", 4), ("c", 2)]) = 4 := by
  refine ⟨by decide, by decide, ?_⟩
  exact (c5_replacement 2 [("a", (10 : ℚ)), ("b", 4), ("c", 2)]).1 ("b", 4)
    (by decide) (by decide)

theorem assignTierFrom_pos (ppg : ℚ) (n : ℕ) (hn : 1 ≤ n) :
    ∀ (th : List ℚ) (i : ℕ), 1 ≤ assignTierFrom ppg n th i := by
  intro th
  induction th with
  | nil => intro i; simpa [assignTierFrom] using hn
  | cons t rest ih =>
    intro i
    by_cases h : t ≤ ppg
    · simp only [assignTierFrom, if_pos h]
      omega
    · simpa [assignTierFrom, h] using ih (i + 1)

theorem assignTierFrom_le (ppg : ℚ) (n : ℕ) :
    ∀ (th : List ℚ) (i : ℕ), i + th.length ≤ n → assignTierFrom ppg n th i ≤ n := by
  intro th
  induction th with
  | nil => intro i _; simp [assignTierFrom]
  | cons t rest ih =>
    intro i h
    simp only [List.length_cons] at h
    by_cases hc : t ≤ ppg
    · simp only [assignTierFrom, if_pos hc]
      omega
    · simp only [assignTierFrom, if_neg hc]
      exact ih (i + 1) (by omega)

theorem assignTierFrom_spec (ppg : ℚ) (n : ℕ) :
    ∀ (th : List ℚ) (i : ℕ),
      (∃ k t, th.get? k = some t ∧ t ≤ ppg
        ∧ assignTierFrom ppg n th i = i + k + 1
        ∧ ∀ j u, j < k → th.get? j = some u → ppg < u)
      ∨ ((∀ j u, th.get? j = some u → ppg < u) ∧ assignTierFrom ppg n th i = n) := by
  intro th
  induction th with
  | nil =>
    intro i
    right
    constructor
    · intro j u hj
      simp at hj
    · rfl
  | cons t rest ih =>
    intro i
    by_cases hc : t ≤ ppg
    · left
      refine ⟨0, t, rfl, hc, by simp [assignTierFrom, hc], ?_⟩
      intro j u hj _
      exact absurd hj (Nat.not_lt_zero j)
    · rcases ih (i + 1) with ⟨k, u, hget, hle, heq, hprev⟩ | ⟨hall, heq⟩
      · left
        refine ⟨k + 1, u, by simpa using hget, hle, ?_, ?_⟩
        · simp only [assignTierFrom, if_neg hc]
          omega
        · intro j u2 hj hget2
          cases j with
          | zero =>
            have : u2 = t := by simpa using hget2.symm
            rw [this]
            exact lt_of_not_le hc
          | succ j2 =>
            exact hprev j2 u2 (by omega) (by simpa using hget2)
      · right
        constructor
        · intro j u2 hget2
          cases j with
          | zero =>
            have : u2 = t := by simpa using hget2.symm
            rw [this]
            exact lt_of_not_le hc
          | succ j2 =>
            exact hall j2 u2 (by simpa using hget2)
        · simp only [assignTierFrom, if_neg hc]
          exact heq

/-- C7: for every non-empty player list and every possible standard
deviation value, tier generation with six tiers assigns each player a tier
in `[1, 6]`, namely the lowest-indexed tier whose boundary the player's ppg
meets or exceeds, and tier 6 when no boundary is met. -/
theorem c7_tier_assignment (players : List (String × ℚ)) (dev : ℚ) (hne : players ≠ []) :
    ∀ e ∈ generate_tiers players dev 6, tierSpec players dev e := by
  intro e he
  rw [generate_tiers, if_neg hne] at he
  simp only [List.mem_map] at he
  obtain ⟨p, hp, rfl⟩ := he
  have hlen : (tierThresholds (topPpg players) dev 6).length = 6 := by
    rw [tierThresholds, List.length_map, List.length_range]
  constructor
  · constructor
    · exact assignTierFrom_pos p.2 6 (by omega) _ 0
    · exact assignTierFrom_le p.2 6 _ 0 (by rw [hlen])
  · rcases assignTierFrom_spec p.2 6 (tierThresholds (topPpg players) dev 6) 0 with
      ⟨k, t, hget, hle, heq, hprev⟩ | ⟨hall, heq⟩
    · left
      exact ⟨k, t, by simpa using heq, hget, hle, hprev⟩
    · right
      exact ⟨heq, hall⟩

/-- C7 witness: a single-player position with deviation 1. -/
theorem c7_witness :
    ([("a", (10 : ℚ))] : List (String × ℚ)) ≠ []
    ∧ ∀ e ∈ generate_tiers [("a", (10 : ℚ))] 1 6, tierSpec [("a", (10 : ℚ))] 1 e :=
  ⟨by decide, c7_tier_assignment [("a", (10 : ℚ))] 1 (by decide)⟩

/-- C8: a player appears in the consistency output exactly when they are a
grouped player of the analysis window whose games played meets the
minimum-games floor; in particular a player with exactly the floor is kept
and a player with one fewer game is excluded. -/
theorem c8_min_games_filter (rows : List GameRow) (seasons : List ℤ) (minGames : ℕ)
    (pid : String) :
    ((∃ g, (pid, g) ∈ consistencyOutput rows seasons minGames) ↔
      (pid ∈ playerIds (windowRows rows seasons)
        ∧ minGames ≤ gamesPlayed (windowRows rows seasons) pid))
    ∧ (gamesPlayed (windowRows rows seasons) pid = minGames →
        pid ∈ playerIds (windowRows rows seasons) →
        (pid, minGames) ∈ consistencyOutput rows seasons minGames)
    ∧ (gamesPlayed (windowRows rows seasons) pid + 1 = minGames →
        ∀ g, (pid, g) ∉ consistencyOutput rows seasons minGames) := by
  have hiff : (∃ g, (pid, g) ∈ consistencyOutput rows seasons minGames) ↔
      (pid ∈ playerIds (windowRows rows seasons)
        ∧ minGames ≤ gamesPlayed (windowRows rows seasons) pid) := by
    constructor
    · rintro ⟨g, hg⟩
      simp only [consistencyOutput, List.mem_filter, List.mem_map, decide_eq_true_eq] at hg
      obtain ⟨⟨q, hq, heq⟩, hle⟩ := hg
      injection heq with h1 h2
      subst h1
      subst h2
      exact ⟨hq, hle⟩
    · rintro ⟨hmem, hle⟩
      refine ⟨gamesPlayed (windowRows rows seasons) pid, ?_⟩
      simp only [consistencyOutput, List.mem_filter, List.mem_map, decide_eq_true_eq]
      exact ⟨⟨pid, hmem, rfl⟩, hle⟩
  refine ⟨hiff, ?_, ?_⟩
  · intro hgp hmem
    simp only [consistencyOutput, List.mem_filter, List.mem_map, decide_eq_true_eq]
    exact ⟨⟨pid, hmem, by rw [hgp]⟩, le_refl _⟩
  · intro hgp g hg
    have h := hiff.mp ⟨g, hg⟩
    omega

/-- C8 witness: a player with exactly two games and a floor of two is kept. -/
theorem c8_witness :
    gamesPlayed (windowRows [⟨"a", 2024, 1⟩, ⟨"a", 2024, 2⟩] [2024]) "a" = 2
    ∧ "a" ∈ playerIds (windowRows [⟨"a", 2024, 1⟩, ⟨"a", 2024, 2⟩] [2024])
    ∧ ("a", 2) ∈ consistencyOutput [⟨"a", 2024, 1⟩, ⟨"a", 2024, 2⟩] [2024] 2 := by
  refine ⟨by decide, by decide, ?_⟩
  exact (c8_min_games_filter [⟨"a", 2024, 1⟩, ⟨"a", 2024, 2⟩] [2024] 2 "a").2.1
    (by decide) (by decide)

theorem ratingForRank_ne_NA (r : ℚ) : ratingForRank r ≠ "N/A" := by
  unfold ratingForRank
  split
  · decide
  · split
    · decide
    · split
      · decide
      · split
        · decide
        · decide

/-- C9: a roster player whose team has no scheduled game in the upcoming
week receives the explicit sentinel record with opponent "BYE WEEK" and
rating "N/A" — a total, non-raising outcome — while every player with a
scheduled game receives a rating other than "N/A", so the sentinel is
distinguishable from every scored result. -/
theorem c9_bye_week_sentinel (name team pos : String) (avg : ℚ) (upcoming : List Game)
    (pa : List DefRow) :
    (gameFor team upcoming = none →
      (analyze_matchup name team pos avg upcoming pa).opponent = "BYE WEEK"
      ∧ (analyze_matchup name team pos avg upcoming pa).rating = "N/A")
    ∧ (∀ g, gameFor team upcoming = some g →
      (analyze_matchup name team pos avg upcoming pa).rating ≠ "N/A") := by
  constructor
  · intro h
    constructor <;> simp [analyze_matchup, h]
  · intro g h
    cases hf : List.find? (fun d =>
        decide (d.team = if g.home_team = team then g.away_team else g.home_team)
          && decide (d.position = pos)) pa with
    | none =>
      simp only [analyze_matchup, h, hf]
      decide
    | some d =>
      simp only [analyze_matchup, h, hf]
      exact ratingForRank_ne_NA d.rank

/-- C9 witness: an empty schedule, hence a bye week. -/
theorem c9_witness :
    gameFor "T" ([] : List Game) = none
    ∧ (analyze_matchup "X" "T" "QB" 7 [] []).opponent = "BYE WEEK"
    ∧ (analyze_matchup "X" "T" "QB" 7 [] []).rating = "N/A" := by
  have h : gameFor "T" ([] : List Game) = none := rfl
  have hc := (c9_bye_week_sentinel "X" "T" "QB" 7 [] []).1 h
  exact ⟨h, hc.1, hc.2⟩

theorem setCell_fresh (row : StatRow) (oc : String) (c : Cell)
    (h : lookupCell row oc = none) : setCell row oc c = row ++ [(oc, c)] := by
  simp [setCell, h]

/-- C10 counterexample: when the input DataFrame already contains the output
column, `apply_scoring` overwrites that column in place — the original value
99 is replaced by the recomputed score 0 and no new column is added — so
"every original column and value is unchanged, with exactly one new column
added" fails for such inputs. -/
theorem c10_counterexample :
    apply_scoring "pos" sampleRules "fantasy_points"
        [[("fantasy_points", Cell.num 99)]]
      = some [[("fantasy_points", Cell.num 0)]]
    ∧ Cell.num (99 : ℚ) ≠ Cell.num 0
    ∧ ([("fantasy_points", Cell.num (0 : ℚ))] : StatRow).length
      = ([("fantasy_points", Cell.num (99 : ℚ))] : StatRow).length := by
  have hfd : ("FLEX" : String) ≠ "DST" := by decide
  have hfk : ("FLEX" : String) ≠ "K" := by decide
  have hpos : posArg [("fantasy_points", Cell.num 99)] "pos" = none := by decide
  have hgpy : _g [("fantasy_points", Cell.num 99)] al_pass_yds = 0 := by decide
  have hgpt : _g [("fantasy_points", Cell.num 99)] al_pass_tds = 0 := by decide
  have hgpi : _g [("fantasy_points", Cell.num 99)] al_pass_int = 0 := by decide
  have hgpp : _g [("fantasy_points", Cell.num 99)] al_two_pt_pass = 0 := by decide
  have hgry : _g [("fantasy_points", Cell.num 99)] al_rush_yds = 0 := by decide
  have hgrt : _g [("fantasy_points", Cell.num 99)] al_rush_tds = 0 := by decide
  have hgrp : _g [("fantasy_points", Cell.num 99)] al_two_pt_rush = 0 := by decide
  have hgrf : _g [("fantasy_points", Cell.num 99)] al_rush_fd = 0 := by decide
  have hgcy : _g [("fantasy_points", Cell.num 99)] al_rec_yds = 0 := by decide
  have hgcr : _g [("fantasy_points", Cell.num 99)] al_rec = 0 := by decide
  have hgct : _g [("fantasy_points", Cell.num 99)] al_rec_tds = 0 := by decide
  have hgcp : _g [("fantasy_points", Cell.num 99)] al_two_pt_rec = 0 := by decide
  have hgcf : _g [("fantasy_points", Cell.num 99)] al_rec_fd = 0 := by decide
  have hgtf : _g [("fantasy_points", Cell.num 99)] al_fumbles_lost = 0 := by decide
  have hgtk : _g [("fantasy_points", Cell.num 99)] al_kr_td = 0 := by decide
  have hgtp : _g [("fantasy_points", Cell.num 99)] al_pr_td = 0 := by decide
  have hgti : _g [("fantasy_points", Cell.num 99)] al_int_ret_td = 0 := by decide
  have hgtu : _g [("fantasy_points", Cell.num 99)] al_fum_ret_td = 0 := by decide
  have hgtb : _g [("fantasy_points", Cell.num 99)] al_blk_kick_ret_td = 0 := by decide
  have hgtt : _g [("fantasy_points", Cell.num 99)] al_two_pt_ret = 0 := by decide
  have hgto : _g [("fantasy_points", Cell.num 99)] al_one_pt_safety = 0 := by decide
  have hP : _score_passing [("fantasy_points", Cell.num 99)] sampleRules = some 0 := by
    norm_num [_score_passing, sampleRules, samplePassing, hgpy, hgpt, hgpi, hgpp]
  have hR : _score_rushing [("fantasy_points", Cell.num 99)] sampleRules = some 0 := by
    norm_num [_score_rushing, sampleRules, sampleRushing, hgry, hgrt, hgrp, hgrf]
  have hRe : _score_receiving [("fantasy_points", Cell.num 99)] sampleRules = some 0 := by
    norm_num [_score_receiving, sampleRules, sampleReceiving, hgcy, hgcr, hgct, hgcp, hgcf]
  have hT : _score_turnovers_and_returns [("fantasy_points", Cell.num 99)] sampleRules = some 0 := by
    norm_num [_score_turnovers_and_returns, sampleRules, sampleTurnovers, sampleReturns,
      hgtf, hgtk, hgtp, hgti, hgtu, hgtb, hgtt, hgto]
  have hsk : skill_points [("fantasy_points", Cell.num 99)] sampleRules = some 0 := by
    norm_num [skill_points, hP, hR, hRe, hT]
  have hdet : detect_pos [("fantasy_points", Cell.num 99)] = "FLEX" := by decide
  have hcalc : calculate_fantasy_points [("fantasy_points", Cell.num 99)] none sampleRules = some 0 := by
    simp [calculate_fantasy_points, pyOr, hdet, pyUpper_FLEX, hfd, hfk, hsk, round2_zero]
  have hset : setCell [("fantasy_points", Cell.num 99)] "fantasy_points" (Cell.num 0)
      = [("fantasy_points", Cell.num 0)] := by decide
  refine ⟨?_, by simp, rfl⟩
  rw [apply_scoring, hpos, hcalc, apply_scoring]
  simp [hset]

/-- C10 (amended): `apply_scoring` works on a copy (the caller's DataFrame is
never mutated — the embedding is a pure function returning a new frame); when
the output column is not already present, every returned row is the input row
with every original column and value unchanged and exactly one new cell, the
scored output column, appended at the end. -/
theorem c10_apply_scoring (position_col out_col : String) (s : ScoringRules) :
    ∀ df df2 : List StatRow, (∀ row ∈ df, lookupCell row out_col = none) →
      apply_scoring position_col s out_col df = some df2 →
      List.Forall₂ (scoredRowRel position_col s out_col) df df2 := by
  intro df
  induction df with
  | nil =>
    intro df2 _ h
    simp only [apply_scoring, Option.some.injEq] at h
    rw [← h]
    exact List.Forall₂.nil
  | cons row rest ih =>
    intro df2 hfresh h
    rw [apply_scoring] at h
    cases hc : calculate_fantasy_points row (posArg row position_col) s with
    | none => rw [hc] at h; simp at h
    | some v =>
      cases hr : apply_scoring position_col s out_col rest with
      | none => rw [hc, hr] at h; simp at h
      | some rest2 =>
        rw [hc, hr] at h
        simp only [Option.some.injEq] at h
        rw [← h]
        refine List.Forall₂.cons ?_
          (ih rest2 (fun r hr2 => hfresh r (List.mem_cons_of_mem _ hr2)) hr)
        exact ⟨v, hc,
          setCell_fresh row out_col (Cell.num v)
            (hfresh row (List.mem_cons_self row rest))⟩

/-- C10 witness: a fresh output column on a one-row frame with 100 rushing
yards; the scored cell (100 × 0.1 + in-band bonus 1 = 11) is appended. -/
theorem c10_witness :
    (∀ row ∈ ([[("rushing_yards", Cell.num 100)]] : List StatRow), lookupCell row "fantasy_points" = none)
    ∧ apply_scoring "pos" sampleRules "fantasy_points" [[("rushing_yards", Cell.num 100)]]
      = some [[("rushing_yards", Cell.num 100), ("fantasy_points", Cell.num 11)]]
    ∧ List.Forall₂ (scoredRowRel "pos" sampleRules "fantasy_points")
        [[("rushing_yards", Cell.num 100)]]
        [[("rushing_yards", Cell.num 100), ("fantasy_points", Cell.num 11)]] := by
  have hfd : ("FLEX" : String) ≠ "DST" := by decide
  have hfk : ("FLEX" : String) ≠ "K" := by decide
  have hfresh : ∀ row ∈ ([[("rushing_yards", Cell.num 100)]] : List StatRow),
      lookupCell row "fantasy_points" = none := by decide
  have hpos : posArg [("rushing_yards", Cell.num 100)] "pos" = none := by decide
  have hgpy : _g [("rushing_yards", Cell.num 100)] al_pass_yds = 0 := by decide
  have hgpt : _g [("rushing_yards", Cell.num 100)] al_pass_tds = 0 := by decide
  have hgpi : _g [("rushing_yards", Cell.num 100)] al_pass_int = 0 := by decide
  have hgpp : _g [("rushing_yards", Cell.num 100)] al_two_pt_pass = 0 := by decide
  have hgry : _g [("rushing_yards", Cell.num 100)] al_rush_yds = 100 := by decide
  have hgrt : _g [("rushing_yards", Cell.num 100)] al_rush_tds = 0 := by decide
  have hgrp : _g [("rushing_yards", Cell.num 100)] al_two_pt_rush = 0 := by decide
  have hgrf : _g [("rushing_yards", Cell.num 100)] al_rush_fd = 0 := by decide
  have hgcy : _g [("rushing_yards", Cell.num 100)] al_rec_yds = 0 := by decide
  have hgcr : _g [("rushing_yards", Cell.num 100)] al_rec = 0 := by decide
  have hgct : _g [("rushing_yards", Cell.num 100)] al_rec_tds = 0 := by decide
  have hgcp : _g [("rushing_yards", Cell.num 100)] al_two_pt_rec = 0 := by decide
  have hgcf : _g [("rushing_yards", Cell.num 100)] al_rec_fd = 0 := by decide
  have hgtf : _g [("rushing_yards", Cell.num 100)] al_fumbles_lost = 0 := by decide
  have hgtk : _g [("rushing_yards", Cell.num 100)] al_kr_td = 0 := by decide
  have hgtp : _g [("rushing_yards", Cell.num 100)] al_pr_td = 0 := by decide
  have hgti : _g [("rushing_yards", Cell.num 100)] al_int_ret_td = 0 := by decide
  have hgtu : _g [("rushing_yards", Cell.num 100)] al_fum_ret_td = 0 := by decide
  have hgtb : _g [("rushing_yards", Cell.num 100)] al_blk_kick_ret_td = 0 := by decide
  have hgtt : _g [("rushing_yards", Cell.num 100)] al_two_pt_ret = 0 := by decide
  have hgto : _g [("rushing_yards", Cell.num 100)] al_one_pt_safety = 0 := by decide
  have hP : _score_passing [("rushing_yards", Cell.num 100)] sampleRules = some 0 := by
    norm_num [_score_passing, sampleRules, samplePassing, hgpy, hgpt, hgpi, hgpp]
  have hR : _score_rushing [("rushing_yards", Cell.num 100)] sampleRules = some 11 := by
    norm_num [_score_rushing, sampleRules, sampleRushing, hgry, hgrt, hgrp, hgrf]
  have hRe : _score_receiving [("rushing_yards", Cell.num 100)] sampleRules = some 0 := by
    norm_num [_score_receiving, sampleRules, sampleReceiving, hgcy, hgcr, hgct, hgcp, hgcf]
  have hT : _score_turnovers_and_returns [("rushing_yards", Cell.num 100)] sampleRules = some 0 := by
    norm_num [_score_turnovers_and_returns, sampleRules, sampleTurnovers, sampleReturns,
      hgtf, hgtk, hgtp, hgti, hgtu, hgtb, hgtt, hgto]
  have hsk : skill_points [("rushing_yards", Cell.num 100)] sampleRules = some 11 := by
    norm_num [skill_points, hP, hR, hRe, hT]
  have hdet : detect_pos [("rushing_yards", Cell.num 100)] = "FLEX" := by decide
  have hround : round2 11 = 11 := by norm_num [round2, roundHalfEven]
  have hcalc : calculate_fantasy_points [("rushing_yards", Cell.num 100)] none sampleRules = some 11 := by
    simp [calculate_fantasy_points, pyOr, hdet, pyUpper_FLEX, hfd, hfk, hsk, hround]
  have hset : setCell [("rushing_yards", Cell.num 100)] "fantasy_points" (Cell.num 11)
      = [("rushing_yards", Cell.num 100), ("fantasy_points", Cell.num 11)] := by decide
  have happ : apply_scoring "pos" sampleRules "fantasy_points" [[("rushing_yards", Cell.num 100)]]
      = some [[("rushing_yards", Cell.num 100), ("fantasy_points", Cell.num 11)]] := by
    rw [apply_scoring, hpos, hcalc, apply_scoring]
    simp [hset]
  exact ⟨hfresh, happ,
    c10_apply_scoring "pos" "fantasy_points" sampleRules [[("rushing_yards", Cell.num 100)]]
      [[("rushing_yards", Cell.num 100), ("fantasy_points", Cell.num 11)]] hfresh happ⟩
